import Mathlib

/-!
Verification development for `Source/WebCore/layout/FormattingContext.cpp`
(WebKit layout formatting-context core).

The C++ code is shallowly embedded: `LayoutUnit` becomes `Int`; the per-pass
`LayoutContext` store mapping each layout box to its `Display::Box` becomes an
explicit `Store : Nat → DisplayBox` threaded through the functions that mutate
it; the stateless `Geometry` collaborator (external per the design) becomes a
bundle of abstract functions; the layout box tree becomes `Tree : Nat → Box`
with child→containing-block back-links.
-/

namespace WebCoreLayout

/-- `WebCore::Layout::Position` / `LayoutPoint`: a 2-d point. -/
structure Position where
  x : Int
  y : Int
deriving DecidableEq

/-- `Position::moveBy(offset)` — componentwise translation. -/
def Position.moveBy (p q : Position) : Position :=
  { x := p.x + q.x, y := p.y + q.y }

/-- Horizontal pair of edge values (left/right), e.g. a horizontal margin. -/
structure HorizontalEdges where
  left : Int
  right : Int
deriving DecidableEq

/-- Vertical pair of edge values (top/bottom), e.g. a vertical margin. -/
structure VerticalEdges where
  top : Int
  bottom : Int
deriving DecidableEq

/-- Four-sided edge record (border widths or paddings). -/
structure Edges where
  horizontal : HorizontalEdges
  vertical : VerticalEdges
deriving DecidableEq

/-- `Display::Box` — the per-box computed geometry record (ComputedBox). -/
structure DisplayBox where
  topLeft : Position
  contentBoxWidth : Int
  contentBoxHeight : Int
  horizontalMargin : HorizontalEdges
  verticalMargin : VerticalEdges
  horizontalNonComputedMargin : HorizontalEdges
  verticalNonCollapsedMargin : VerticalEdges
  border : Edges
  padding : Option Edges
deriving DecidableEq

/-- A computed style length: either `auto` or a concrete pixel value.
Resolution against a containing-block width is the (abstract) Geometry
collaborator's `computedValueIfNotAuto`. -/
inductive Length where
  | auto : Length
  | px : Int → Length
deriving DecidableEq

/-- `WidthAndMargin` as produced by `Geometry::outOfFlowHorizontalGeometry`. -/
structure WidthAndMargin where
  width : Int
  margin : HorizontalEdges
  nonComputedMargin : HorizontalEdges
deriving DecidableEq

/-- `HorizontalGeometry`: a candidate horizontal solution (left + width/margin). -/
structure HorizontalGeometry where
  left : Int
  widthAndMargin : WidthAndMargin
deriving DecidableEq

/-- `HeightAndMargin` as produced by `Geometry::outOfFlowVerticalGeometry`;
`collapsedMargin` is present exactly when margin collapsing produced a value. -/
structure HeightAndMargin where
  height : Int
  margin : VerticalEdges
  collapsedMargin : Option Int
deriving DecidableEq

/-- `VerticalGeometry`: a candidate vertical solution (top + height/margin). -/
structure VerticalGeometry where
  top : Int
  heightAndMargin : HeightAndMargin
deriving DecidableEq

/-- `WebCore::Layout::Box` — the tree node attributes this file consumes.
`containingBlock` is the child→ancestor back-link; `outOfFlowDescendants` is
the insertion-ordered out-of-flow descendant set of a container. -/
structure Box where
  containingBlock : Option Nat
  isPositioned : Bool
  isInitialContainingBlock : Bool
  isContainer : Bool
  hasChild : Bool
  outOfFlowDescendants : List Nat
  logicalMaxWidth : Length
  logicalMinWidth : Length
deriving DecidableEq

/-- The layout box tree, keyed by box identity. -/
def Tree := Nat → Box

/-- The layout pass's Box → ComputedBox store (`displayBoxForLayoutBox`). -/
def Store := Nat → DisplayBox

/-- Point update of the store: writing box `i`'s ComputedBox. -/
def updateStore (s : Store) (i : Nat) (b : DisplayBox) : Store :=
  fun j => if j = i then b else s j

/-- The stateless `Geometry` collaborator interface (external to this core):
candidate solutions and computed-value resolution are abstract functions of the
box identity and the optional used width/height. -/
structure Geometry where
  outOfFlowHorizontalGeometry : Nat → Option Int → HorizontalGeometry
  outOfFlowVerticalGeometry : Nat → Option Int → VerticalGeometry
  computedValueIfNotAuto : Length → Int → Option Int
  computedMaxHeight : Nat → Option Int
  computedMinHeight : Nat → Option Int
  computedBorder : Nat → Edges
  computedPadding : Nat → Option Edges

/-- `layoutContext.displayBoxForLayoutBox(*layoutBox.containingBlock()).contentBoxWidth()`.
The source dereferences the containing-block pointer unconditionally; for a
box with no containing block the read is modelled at box 0. -/
def containingBlockWidth (tree : Tree) (store : Store) (b : Nat) : Int :=
  (store ((tree b).containingBlock.getD 0)).contentBoxWidth

/-- The working horizontal solution selected by
`FormattingContext::computeOutOfFlowHorizontalGeometry` (lines 56-73):
unconstrained solution, then replaced by the max-constrained solution when the
working width exceeds it, then replaced by the min-constrained solution when
the working width is below it. -/
def selectedHorizontalGeometry (g : Geometry) (tree : Tree) (store : Store) (b : Nat) :
    HorizontalGeometry :=
  let horizontalGeometry := g.outOfFlowHorizontalGeometry b none
  let cbWidth := containingBlockWidth tree store b
  let afterMax :=
    match g.computedValueIfNotAuto (tree b).logicalMaxWidth cbWidth with
    | some maxWidth =>
      let maxHorizontalGeometry := g.outOfFlowHorizontalGeometry b (some maxWidth)
      if horizontalGeometry.widthAndMargin.width > maxHorizontalGeometry.widthAndMargin.width
        then maxHorizontalGeometry else horizontalGeometry
    | none => horizontalGeometry
  match g.computedValueIfNotAuto (tree b).logicalMinWidth cbWidth with
  | some minWidth =>
    let minHorizontalGeometry := g.outOfFlowHorizontalGeometry b (some minWidth)
    if afterMax.widthAndMargin.width < minHorizontalGeometry.widthAndMargin.width
      then minHorizontalGeometry else afterMax
  | none => afterMax

/-- `FormattingContext::computeOutOfFlowHorizontalGeometry` (lines 54-80):
selects the working solution and writes left offset, content-box width,
horizontal margin and non-computed margin into the box's ComputedBox. -/
def computeOutOfFlowHorizontalGeometry (g : Geometry) (tree : Tree) (store : Store) (b : Nat) :
    Store :=
  let horizontalGeometry := selectedHorizontalGeometry g tree store b
  let displayBox := store b
  updateStore store b
    { displayBox with
      topLeft := { displayBox.topLeft with
        x := horizontalGeometry.left + horizontalGeometry.widthAndMargin.margin.left }
      contentBoxWidth := horizontalGeometry.widthAndMargin.width
      horizontalMargin := horizontalGeometry.widthAndMargin.margin
      horizontalNonComputedMargin := horizontalGeometry.widthAndMargin.nonComputedMargin }

theorem updateStore_same (s : Store) (i : Nat) (b : DisplayBox) : updateStore s i b i = b := by
  simp [updateStore]

/-- C1: when both min-width and max-width resolve and the min-constrained
solution's width exceeds the max-constrained solution's width, the final
content-box width written by `computeOutOfFlowHorizontalGeometry` is the
min-constrained solution's width (min dominates max, because the min
comparison is applied after the max comparison). -/
theorem computeOutOfFlowHorizontalGeometry_min_dominates_max
    (g : Geometry) (tree : Tree) (store : Store) (b : Nat) (mw nw : Int)
    (hmax : g.computedValueIfNotAuto (tree b).logicalMaxWidth
      (containingBlockWidth tree store b) = some mw)
    (hmin : g.computedValueIfNotAuto (tree b).logicalMinWidth
      (containingBlockWidth tree store b) = some nw)
    (hlt : (g.outOfFlowHorizontalGeometry b (some mw)).widthAndMargin.width
      < (g.outOfFlowHorizontalGeometry b (some nw)).widthAndMargin.width) :
    (computeOutOfFlowHorizontalGeometry g tree store b b).contentBoxWidth
      = (g.outOfFlowHorizontalGeometry b (some nw)).widthAndMargin.width := by
  simp only [computeOutOfFlowHorizontalGeometry, updateStore_same]
  simp only [selectedHorizontalGeometry, hmax, hmin]
  split_ifs <;> omega

/-- C2: when max-width resolves, the max-constrained solution's width is below
the unconstrained solution's width, and min-width does not resolve, the final
content-box width written by `computeOutOfFlowHorizontalGeometry` is the
max-constrained solution's width. -/
theorem computeOutOfFlowHorizontalGeometry_max_clamps
    (g : Geometry) (tree : Tree) (store : Store) (b : Nat) (mw : Int)
    (hmax : g.computedValueIfNotAuto (tree b).logicalMaxWidth
      (containingBlockWidth tree store b) = some mw)
    (hmin : g.computedValueIfNotAuto (tree b).logicalMinWidth
      (containingBlockWidth tree store b) = none)
    (hlt : (g.outOfFlowHorizontalGeometry b (some mw)).widthAndMargin.width
      < (g.outOfFlowHorizontalGeometry b none).widthAndMargin.width) :
    (computeOutOfFlowHorizontalGeometry g tree store b b).contentBoxWidth
      = (g.outOfFlowHorizontalGeometry b (some mw)).widthAndMargin.width := by
  simp only [computeOutOfFlowHorizontalGeometry, updateStore_same]
  simp only [selectedHorizontalGeometry, hmax, hmin]
  split_ifs <;> omega

/-- The working vertical solution selected by
`FormattingContext::computeOutOfFlowVerticalGeometry` (lines 84-99):
unconstrained solution, then max-height clamp, then min-height clamp. -/
def selectedVerticalGeometry (g : Geometry) (b : Nat) : VerticalGeometry :=
  let verticalGeometry := g.outOfFlowVerticalGeometry b none
  let afterMax :=
    match g.computedMaxHeight b with
    | some maxHeight =>
      let maxVerticalGeometry := g.outOfFlowVerticalGeometry b (some maxHeight)
      if verticalGeometry.heightAndMargin.height > maxVerticalGeometry.heightAndMargin.height
        then maxVerticalGeometry else verticalGeometry
    | none => verticalGeometry
  match g.computedMinHeight b with
  | some minHeight =>
    let minVerticalGeometry := g.outOfFlowVerticalGeometry b (some minHeight)
    if afterMax.heightAndMargin.height < minVerticalGeometry.heightAndMargin.height
      then minVerticalGeometry else afterMax
  | none => afterMax

/-- `FormattingContext::computeOutOfFlowVerticalGeometry` (lines 82-107):
selects the working vertical solution and writes top offset, content-box
height, vertical margin and vertical non-collapsed margin (both from the same
selected margin) into the box's ComputedBox. -/
def computeOutOfFlowVerticalGeometry (g : Geometry) (store : Store) (b : Nat) : Store :=
  let verticalGeometry := selectedVerticalGeometry g b
  let displayBox := store b
  updateStore store b
    { displayBox with
      topLeft := { displayBox.topLeft with
        y := verticalGeometry.top + verticalGeometry.heightAndMargin.margin.top }
      contentBoxHeight := verticalGeometry.heightAndMargin.height
      verticalMargin := verticalGeometry.heightAndMargin.margin
      verticalNonCollapsedMargin := verticalGeometry.heightAndMargin.margin }

/-- The condition checked by `ASSERT(!verticalGeometry.heightAndMargin.collapsedMargin)`
inside `computeOutOfFlowVerticalGeometry` (line 104): `true` exactly when the
selected vertical solution carries a collapsed margin, i.e. when the
assertion's failure branch is taken. -/
def outOfFlowVerticalGeometryHasCollapsedMargin (g : Geometry) (b : Nat) : Bool :=
  (selectedVerticalGeometry g b).heightAndMargin.collapsedMargin.isSome

/-- C8: under the precondition that the Geometry collaborator never produces a
collapsed margin for the box (for any used height, including the max/min
constrained recomputations), the failure branch of the collapsed-margin
assertion in `computeOutOfFlowVerticalGeometry` is unreachable. -/
theorem outOfFlowVerticalGeometry_assert_unreachable
    (g : Geometry) (b : Nat)
    (h : ∀ u : Option Int,
      (g.outOfFlowVerticalGeometry b u).heightAndMargin.collapsedMargin = none) :
    outOfFlowVerticalGeometryHasCollapsedMargin g b = false := by
  unfold outOfFlowVerticalGeometryHasCollapsedMargin selectedVerticalGeometry
  cases g.computedMaxHeight b <;> cases g.computedMinHeight b <;> dsimp only <;>
    first
      | (split_ifs <;> simp [h])
      | simp [h]

/-- C10: after `computeOutOfFlowVerticalGeometry`, the box's ComputedBox has
its vertical non-collapsed margin equal to its vertical margin — both are
written from the selected solution's margin. -/
theorem computeOutOfFlowVerticalGeometry_nonCollapsed_eq_margin
    (g : Geometry) (store : Store) (b : Nat) :
    (computeOutOfFlowVerticalGeometry g store b b).verticalNonCollapsedMargin
      = (computeOutOfFlowVerticalGeometry g store b b).verticalMargin := by
  simp [computeOutOfFlowVerticalGeometry, updateStore_same]

/-- C3 (amended): `computeOutOfFlowHorizontalGeometry` writes the left offset
as the SELECTED working solution's left plus that same solution's left margin
(not the unconstrained solution's left), together with that solution's content
width, margin and non-computed margin; the stored vertical coordinate is left
untouched. -/
theorem computeOutOfFlowHorizontalGeometry_writes_selected
    (g : Geometry) (tree : Tree) (store : Store) (b : Nat) :
    (computeOutOfFlowHorizontalGeometry g tree store b b).topLeft.x
        = (selectedHorizontalGeometry g tree store b).left
          + (selectedHorizontalGeometry g tree store b).widthAndMargin.margin.left
      ∧ (computeOutOfFlowHorizontalGeometry g tree store b b).topLeft.y
        = (store b).topLeft.y
      ∧ (computeOutOfFlowHorizontalGeometry g tree store b b).contentBoxWidth
        = (selectedHorizontalGeometry g tree store b).widthAndMargin.width
      ∧ (computeOutOfFlowHorizontalGeometry g tree store b b).horizontalMargin
        = (selectedHorizontalGeometry g tree store b).widthAndMargin.margin
      ∧ (computeOutOfFlowHorizontalGeometry g tree store b b).horizontalNonComputedMargin
        = (selectedHorizontalGeometry g tree store b).widthAndMargin.nonComputedMargin := by
  refine ⟨?_, ?_, ?_, ?_, ?_⟩ <;>
    simp [computeOutOfFlowHorizontalGeometry, updateStore_same]

/-- A box with every flag off and no style constraints. -/
def boxDefault : Box :=
  { containingBlock := none, isPositioned := false, isInitialContainingBlock := false,
    isContainer := false, hasChild := false, outOfFlowDescendants := [],
    logicalMaxWidth := Length.auto, logicalMinWidth := Length.auto }

/-- An all-zero ComputedBox. -/
def displayBoxZero : DisplayBox :=
  { topLeft := { x := 0, y := 0 }, contentBoxWidth := 0, contentBoxHeight := 0,
    horizontalMargin := { left := 0, right := 0 }, verticalMargin := { top := 0, bottom := 0 },
    horizontalNonComputedMargin := { left := 0, right := 0 },
    verticalNonCollapsedMargin := { top := 0, bottom := 0 },
    border := { horizontal := { left := 0, right := 0 }, vertical := { top := 0, bottom := 0 } },
    padding := none }

/-- A store where every ComputedBox is all-zero. -/
def storeZero : Store := fun _ => displayBoxZero

/-- A concrete Geometry instance: the unconstrained width is 800 (the
"stretch" solution), a used width is taken verbatim, margins are zero, and
`px` lengths resolve to their value. -/
def gStretch : Geometry :=
  { outOfFlowHorizontalGeometry := fun _ u =>
      { left := 0,
        widthAndMargin :=
          { width := u.getD 800, margin := { left := 0, right := 0 },
            nonComputedMargin := { left := 0, right := 0 } } },
    outOfFlowVerticalGeometry := fun _ u =>
      { top := 0,
        heightAndMargin :=
          { height := u.getD 100, margin := { top := 0, bottom := 0 }, collapsedMargin := none } },
    computedValueIfNotAuto := fun l _ =>
      match l with
      | Length.auto => none
      | Length.px v => some v,
    computedMaxHeight := fun _ => none,
    computedMinHeight := fun _ => none,
    computedBorder := fun _ =>
      { horizontal := { left := 0, right := 0 }, vertical := { top := 0, bottom := 0 } },
    computedPadding := fun _ => none }

/-- A concrete Geometry instance whose constrained solutions move the box:
with a used width the solution's left is 7 and its left margin is 3, while the
unconstrained solution sits at left 0 with zero margins. -/
def gShift : Geometry :=
  { gStretch with
    outOfFlowHorizontalGeometry := fun _ u =>
      match u with
      | none =>
        { left := 0,
          widthAndMargin :=
            { width := 800, margin := { left := 0, right := 0 },
              nonComputedMargin := { left := 0, right := 0 } } }
      | some w =>
        { left := 7,
          widthAndMargin :=
            { width := w, margin := { left := 3, right := 0 },
              nonComputedMargin := { left := 0, right := 0 } } } }

/-- A tree where box 1 is positioned in containing block 0 with
max-width 400px and min-width 600px. -/
def treeMinMax : Tree := fun b =>
  if b = 1 then
    { boxDefault with
      containingBlock := some 0,
      isPositioned := true,
      logicalMaxWidth := Length.px 400,
      logicalMinWidth := Length.px 600 }
  else boxDefault

/-- A tree where box 1 is positioned in containing block 0 with
max-width 400px and min-width auto. -/
def treeMaxOnly : Tree := fun b =>
  if b = 1 then
    { boxDefault with
      containingBlock := some 0,
      isPositioned := true,
      logicalMaxWidth := Length.px 400 }
  else boxDefault

/-- C1 witness: min-width 600px against max-width 400px — the hypotheses hold
and the final content width is the min-constrained 600. -/
theorem computeOutOfFlowHorizontalGeometry_min_dominates_max_witness :
    gStretch.computedValueIfNotAuto (treeMinMax 1).logicalMaxWidth
        (containingBlockWidth treeMinMax storeZero 1) = some 400
      ∧ gStretch.computedValueIfNotAuto (treeMinMax 1).logicalMinWidth
        (containingBlockWidth treeMinMax storeZero 1) = some 600
      ∧ (gStretch.outOfFlowHorizontalGeometry 1 (some 400)).widthAndMargin.width
        < (gStretch.outOfFlowHorizontalGeometry 1 (some 600)).widthAndMargin.width
      ∧ (computeOutOfFlowHorizontalGeometry gStretch treeMinMax storeZero 1 1).contentBoxWidth
        = (gStretch.outOfFlowHorizontalGeometry 1 (some 600)).widthAndMargin.width :=
  ⟨by decide, by decide, by decide,
    computeOutOfFlowHorizontalGeometry_min_dominates_max gStretch treeMinMax storeZero 1 400 600
      (by decide) (by decide) (by decide)⟩

/-- C2 witness: max-width 400px, min-width auto, unconstrained width 800 — the
hypotheses hold and the final content width is the max-constrained 400. -/
theorem computeOutOfFlowHorizontalGeometry_max_clamps_witness :
    gStretch.computedValueIfNotAuto (treeMaxOnly 1).logicalMaxWidth
        (containingBlockWidth treeMaxOnly storeZero 1) = some 400
      ∧ gStretch.computedValueIfNotAuto (treeMaxOnly 1).logicalMinWidth
        (containingBlockWidth treeMaxOnly storeZero 1) = none
      ∧ (gStretch.outOfFlowHorizontalGeometry 1 (some 400)).widthAndMargin.width
        < (gStretch.outOfFlowHorizontalGeometry 1 none).widthAndMargin.width
      ∧ (computeOutOfFlowHorizontalGeometry gStretch treeMaxOnly storeZero 1 1).contentBoxWidth
        = (gStretch.outOfFlowHorizontalGeometry 1 (some 400)).widthAndMargin.width :=
  ⟨by decide, by decide, by decide,
    computeOutOfFlowHorizontalGeometry_max_clamps gStretch treeMaxOnly storeZero 1 400
      (by decide) (by decide) (by decide)⟩

/-- C3 counterexample: with the max-constrained solution selected (left 7,
left margin 3, width 400 against an unconstrained width 800 at left 0), the
written left offset is 10, not the unconstrained solution's left (0) plus the
resolved left margin (3) — the left component comes from the selected
solution, not the unconstrained one. -/
theorem computeOutOfFlowHorizontalGeometry_left_not_unconstrained :
    ¬ ((computeOutOfFlowHorizontalGeometry gShift treeMaxOnly storeZero 1 1).topLeft.x
      = (gShift.outOfFlowHorizontalGeometry 1 none).left
        + (computeOutOfFlowHorizontalGeometry gShift treeMaxOnly storeZero 1 1).horizontalMargin.left) := by
  decide

/-- C8 witness: a Geometry that never produces a collapsed margin — the
precondition holds and the assertion's failure branch is not taken. -/
theorem outOfFlowVerticalGeometry_assert_unreachable_witness :
    (∀ u : Option Int,
      (gStretch.outOfFlowVerticalGeometry 1 u).heightAndMargin.collapsedMargin = none)
    ∧ outOfFlowVerticalGeometryHasCollapsedMargin gStretch 1 = false :=
  ⟨fun _ => rfl,
    outOfFlowVerticalGeometry_assert_unreachable gStretch 1 (fun _ => rfl)⟩

/-- The containing-block chain walk shared by `mapBoxToAncestor` (lines
171-173) and `mapCoordinateToAncestor` (lines 194-196): starting from `cur`,
accumulate each visited ComputedBox's top-left into `pos` until the walk
reaches `ancestor` or runs off the chain (null pointer). `fuel` bounds the
number of iterations (the C++ loop is unbounded; `none` means the loop did not
finish within `fuel` steps). The second component is the final container
pointer tested by the null check after the loop. -/
def walkLoop (tree : Tree) (store : Store) (ancestor : Nat) :
    Nat → Option Nat → Position → Option (Position × Option Nat)
  | _, none, pos => some (pos, none)
  | fuel, some c, pos =>
    if c = ancestor then some (pos, some c)
    else
      match fuel with
      | 0 => none
      | f + 1 =>
        walkLoop tree store ancestor f (tree c).containingBlock (pos.moveBy (store c).topLeft)

/-- `FormattingContext::mapCoordinateToAncestor` (lines 191-204): walk the
containing-block chain from `containingBlock`; if the walk reaches `ancestor`,
return the accumulated position; if it runs off the chain (the asserted
contract violation), return the original `position` unchanged. -/
def mapCoordinateToAncestor (tree : Tree) (store : Store) (fuel : Nat) (position : Position)
    (containingBlock : Nat) (ancestor : Nat) : Option Position :=
  match walkLoop tree store ancestor fuel (some containingBlock) position with
  | none => none
  | some (mappedPosition, some _) => some mappedPosition
  | some (_, none) => some position

/-- `FormattingContext::mapBoxToAncestor` (lines 164-183): copy the box's
ComputedBox and restate its top-left by walking the containing-block chain;
on the asserted contract violation (chain runs off to null) return a copy of
the original ComputedBox unchanged. The store is returned alongside to make
the function's (absent) store effects explicit. -/
def mapBoxToAncestor (tree : Tree) (store : Store) (fuel : Nat) (b : Nat) (ancestor : Nat) :
    Option (DisplayBox × Store) :=
  let displayBox := store b
  match walkLoop tree store ancestor fuel (tree b).containingBlock displayBox.topLeft with
  | none => none
  | some (topLeft, some _) => some ({ displayBox with topLeft := topLeft }, store)
  | some (_, none) => some (displayBox, store)

/-- `isChainTo tree ancestor cur chain` holds when walking containing-block
links from `cur` visits exactly the boxes of `chain` in order (none of them
equal to `ancestor`) and then arrives at `ancestor`. -/
def isChainTo (tree : Tree) (ancestor : Nat) : Option Nat → List Nat → Bool
  | some c, [] => c == ancestor
  | some c, d :: ds =>
    c == d && c != ancestor && isChainTo tree ancestor (tree c).containingBlock ds
  | none, _ => false

/-- `isChainToNull tree ancestor cur chain` holds when walking containing-block
links from `cur` visits exactly the boxes of `chain` in order, never meets
`ancestor`, and then runs off the chain (null). -/
def isChainToNull (tree : Tree) (ancestor : Nat) : Option Nat → List Nat → Bool
  | none, [] => true
  | none, _ :: _ => false
  | some _, [] => false
  | some c, d :: ds =>
    c == d && c != ancestor && isChainToNull tree ancestor (tree c).containingBlock ds

/-- Sum of the stored top-left positions of the boxes in `chain`. -/
def sumTopLefts (store : Store) (chain : List Nat) : Position :=
  chain.foldr (fun c p => ((store c).topLeft).moveBy p) { x := 0, y := 0 }

theorem Position.moveBy_assoc (p q r : Position) :
    (p.moveBy q).moveBy r = p.moveBy (q.moveBy r) := by
  simp [Position.moveBy, Int.add_assoc]

theorem Position.moveBy_zero (p : Position) : p.moveBy { x := 0, y := 0 } = p := by
  cases p
  simp [Position.moveBy]

theorem walkLoop_isChainTo (tree : Tree) (store : Store) (ancestor : Nat) :
    ∀ (chain : List Nat) (cur : Option Nat) (pos : Position) (fuel : Nat),
      isChainTo tree ancestor cur chain = true → chain.length ≤ fuel →
      walkLoop tree store ancestor fuel cur pos
        = some (pos.moveBy (sumTopLefts store chain), some ancestor) := by
  intro chain
  induction chain with
  | nil =>
    intro cur pos fuel hch _
    match cur with
    | none => simp [isChainTo] at hch
    | some c =>
      simp only [isChainTo, beq_iff_eq] at hch
      subst hch
      cases fuel <;> simp [walkLoop, sumTopLefts, Position.moveBy_zero]
  | cons d ds ih =>
    intro cur pos fuel hch hf
    match cur with
    | none => simp [isChainTo] at hch
    | some c =>
      simp only [isChainTo, Bool.and_eq_true, beq_iff_eq, bne_iff_ne, ne_eq] at hch
      obtain ⟨⟨hcd, hca⟩, hrest⟩ := hch
      subst hcd
      match fuel with
      | 0 => simp at hf
      | f + 1 =>
        simp only [walkLoop, if_neg hca]
        rw [ih (tree c).containingBlock (pos.moveBy (store c).topLeft) f hrest
          (by simpa using Nat.succ_le_succ_iff.mp hf)]
        simp [sumTopLefts, Position.moveBy_assoc]

theorem walkLoop_isChainToNull (tree : Tree) (store : Store) (ancestor : Nat) :
    ∀ (chain : List Nat) (cur : Option Nat) (pos : Position) (fuel : Nat),
      isChainToNull tree ancestor cur chain = true → chain.length ≤ fuel →
      walkLoop tree store ancestor fuel cur pos
        = some (pos.moveBy (sumTopLefts store chain), none) := by
  intro chain
  induction chain with
  | nil =>
    intro cur pos fuel hch _
    match cur with
    | none => simp [walkLoop, sumTopLefts, Position.moveBy_zero]
    | some c => simp [isChainToNull] at hch
  | cons d ds ih =>
    intro cur pos fuel hch hf
    match cur with
    | none => simp [isChainToNull] at hch
    | some c =>
      simp only [isChainToNull, Bool.and_eq_true, beq_iff_eq, bne_iff_ne, ne_eq] at hch
      obtain ⟨⟨hcd, hca⟩, hrest⟩ := hch
      subst hcd
      match fuel with
      | 0 => simp at hf
      | f + 1 =>
        simp only [walkLoop, if_neg hca]
        rw [ih (tree c).containingBlock (pos.moveBy (store c).topLeft) f hrest
          (by simpa using Nat.succ_le_succ_iff.mp hf)]
        simp [sumTopLefts, Position.moveBy_assoc]

/-- C4: when the containing-block chain from the box's immediate containing
block reaches `ancestor` after visiting exactly the boxes of `chain`, the
mapped position equals the box's stored top-left translated by the sum of the
top-lefts of the ComputedBoxes along `chain` — both for the raw coordinate
mapping and for the top-left of the mapped box geometry. -/
theorem mapToAncestor_sum_along_chain
    (tree : Tree) (store : Store) (fuel : Nat) (b cb ancestor : Nat) (chain : List Nat)
    (hcb : (tree b).containingBlock = some cb)
    (hchain : isChainTo tree ancestor (some cb) chain = true)
    (hfuel : chain.length ≤ fuel) :
    mapCoordinateToAncestor tree store fuel ((store b).topLeft) cb ancestor
        = some (((store b).topLeft).moveBy (sumTopLefts store chain))
      ∧ (mapBoxToAncestor tree store fuel b ancestor).map (fun r => r.1.topLeft)
        = some (((store b).topLeft).moveBy (sumTopLefts store chain)) := by
  have h1 := walkLoop_isChainTo tree store ancestor chain (some cb) ((store b).topLeft) fuel
    hchain hfuel
  constructor
  · simp [mapCoordinateToAncestor, h1]
  · simp [mapBoxToAncestor, hcb, h1]

/-- C5: when the containing-block chain terminates at null without meeting
`ancestor` (the asserted contract violation), the mapping operations return
the unmapped input: `mapCoordinateToAncestor` returns the original position
and `mapBoxToAncestor` returns a copy of the original ComputedBox with its
stored top-left (and the store untouched). -/
theorem mapToAncestor_missing_ancestor_returns_unmapped
    (tree : Tree) (store : Store) (fuel : Nat) (b cb ancestor : Nat)
    (pos : Position) (chainP chainB : List Nat)
    (hP : isChainToNull tree ancestor (some cb) chainP = true)
    (hB : isChainToNull tree ancestor (tree b).containingBlock chainB = true)
    (hfP : chainP.length ≤ fuel)
    (hfB : chainB.length ≤ fuel) :
    mapCoordinateToAncestor tree store fuel pos cb ancestor = some pos
      ∧ mapBoxToAncestor tree store fuel b ancestor = some (store b, store) := by
  have h1 := walkLoop_isChainToNull tree store ancestor chainP (some cb) pos fuel hP hfP
  have h2 := walkLoop_isChainToNull tree store ancestor chainB (tree b).containingBlock
    ((store b).topLeft) fuel hB hfB
  constructor
  · simp [mapCoordinateToAncestor, h1]
  · simp [mapBoxToAncestor, h2]

/-- C9: `mapBoxToAncestor` returns a fresh geometry record equal to the box's
ComputedBox with only the top-left restated (translated by the chain's
top-left sum); the store it returns is the input store itself — no stored
ComputedBox is modified. -/
theorem mapBoxToAncestor_fresh_copy_pure
    (tree : Tree) (store : Store) (fuel : Nat) (b ancestor : Nat) (chain : List Nat)
    (hchain : isChainTo tree ancestor (tree b).containingBlock chain = true)
    (hfuel : chain.length ≤ fuel) :
    mapBoxToAncestor tree store fuel b ancestor
      = some ({ store b with
          topLeft := ((store b).topLeft).moveBy (sumTopLefts store chain) }, store) := by
  have h1 := walkLoop_isChainTo tree store ancestor chain (tree b).containingBlock
    ((store b).topLeft) fuel hchain hfuel
  simp [mapBoxToAncestor, h1]

/-- A linear containing-block chain: box 0 is the initial containing block;
every other box `b` is positioned in containing block `b - 1`. -/
def treeChain : Tree := fun b =>
  if b = 0 then
    { boxDefault with isInitialContainingBlock := true, isContainer := true, hasChild := true }
  else
    { boxDefault with
      containingBlock := some (b - 1),
      isPositioned := true,
      isContainer := true }

/-- A store giving boxes 1, 2, 3 distinct top-left positions. -/
def storeSteps : Store := fun b =>
  if b = 1 then { displayBoxZero with topLeft := { x := 10, y := 1 } }
  else if b = 2 then { displayBoxZero with topLeft := { x := 20, y := 2 } }
  else if b = 3 then { displayBoxZero with topLeft := { x := 30, y := 3 } }
  else displayBoxZero

/-- C4 witness: box 3 with chain 3 → 2 → 1 → 0 mapped to ancestor 0 — the
chain hypotheses hold and both mappings give the stored top-left of box 3
plus the top-lefts of boxes 2 and 1. -/
theorem mapToAncestor_sum_along_chain_witness :
    (treeChain 3).containingBlock = some 2
      ∧ isChainTo treeChain 0 (some 2) [2, 1] = true
      ∧ [2, 1].length ≤ 5
      ∧ mapCoordinateToAncestor treeChain storeSteps 5 ((storeSteps 3).topLeft) 2 0
        = some (((storeSteps 3).topLeft).moveBy (sumTopLefts storeSteps [2, 1]))
      ∧ (mapBoxToAncestor treeChain storeSteps 5 3 0).map (fun r => r.1.topLeft)
        = some (((storeSteps 3).topLeft).moveBy (sumTopLefts storeSteps [2, 1])) :=
  ⟨by decide, by decide, by decide,
    (mapToAncestor_sum_along_chain treeChain storeSteps 5 3 2 0 [2, 1]
      (by decide) (by decide) (by decide)).1,
    (mapToAncestor_sum_along_chain treeChain storeSteps 5 3 2 0 [2, 1]
      (by decide) (by decide) (by decide)).2⟩

/-- C5 witness: mapping towards box 99, which is not on the chain of box 3 —
the chain from containing block 2 runs 2 → 1 → 0 → null, and both mappings
return the unmapped input. -/
theorem mapToAncestor_missing_ancestor_returns_unmapped_witness :
    isChainToNull treeChain 99 (some 2) [2, 1, 0] = true
      ∧ isChainToNull treeChain 99 (treeChain 3).containingBlock [2, 1, 0] = true
      ∧ [2, 1, 0].length ≤ 5
      ∧ mapCoordinateToAncestor treeChain storeSteps 5 { x := 4, y := 5 } 2 99
        = some { x := 4, y := 5 }
      ∧ mapBoxToAncestor treeChain storeSteps 5 3 99 = some (storeSteps 3, storeSteps) :=
  ⟨by decide, by decide, by decide,
    (mapToAncestor_missing_ancestor_returns_unmapped treeChain storeSteps 5 3 2 99
      { x := 4, y := 5 } [2, 1, 0] [2, 1, 0] (by decide) (by decide) (by decide) (by decide)).1,
    (mapToAncestor_missing_ancestor_returns_unmapped treeChain storeSteps 5 3 2 99
      { x := 4, y := 5 } [2, 1, 0] [2, 1, 0] (by decide) (by decide) (by decide) (by decide)).2⟩

/-- C9 witness: mapping box 3 to ancestor 0 returns the original ComputedBox
of box 3 with only its top-left translated, and the store itself. -/
theorem mapBoxToAncestor_fresh_copy_pure_witness :
    isChainTo treeChain 0 (treeChain 3).containingBlock [2, 1] = true
      ∧ [2, 1].length ≤ 5
      ∧ mapBoxToAncestor treeChain storeSteps 5 3 0
        = some ({ storeSteps 3 with
            topLeft := ((storeSteps 3).topLeft).moveBy (sumTopLefts storeSteps [2, 1]) },
          storeSteps) :=
  ⟨by decide, by decide,
    mapBoxToAncestor_fresh_copy_pure treeChain storeSteps 5 3 0 [2, 1] (by decide) (by decide)⟩

/-- `FormattingContext::computeBorderAndPadding` (lines 109-114): store the
resolved border and (possibly indeterminate) padding on the ComputedBox. -/
def computeBorderAndPadding (g : Geometry) (store : Store) (b : Nat) : Store :=
  updateStore store b
    { store b with border := g.computedBorder b, padding := g.computedPadding b }

/-- One per-descendant step of the out-of-flow traversal, tagged with the
descendant's identity. -/
inductive Event where
  | borderPadding : Nat → Event
  | horizontal : Nat → Event
  | layoutChild : Nat → Event
  | vertical : Nat → Event
deriving DecidableEq

/-- The four per-descendant steps of `layoutOutOfFlowDescendants`
(lines 152-158), in source order. -/
def stepEvents (d : Nat) : List Event :=
  [Event.borderPadding d, Event.horizontal d, Event.layoutChild d, Event.vertical d]

/-- The store updates performed for one out-of-flow descendant `d`
(lines 152-158), in source order: border/padding, horizontal geometry, the
descendant's own formatting-context layout `ext` (opaque to this core), then
vertical geometry. -/
def layoutOneDescendant (g : Geometry) (ext : Nat → Store → Store) (tree : Tree)
    (store : Store) (d : Nat) : Store :=
  let s1 := computeBorderAndPadding g store d
  let s2 := computeOutOfFlowHorizontalGeometry g tree s1 d
  let s3 := ext d s2
  computeOutOfFlowVerticalGeometry g s3 d

/-- `FormattingContext::layoutOutOfFlowDescendants` (lines 131-162): early
exits when the box is neither positioned nor the initial containing block, is
not a container, or has no child; otherwise, for each out-of-flow descendant
in insertion order, perform the four per-descendant steps and recurse into the
descendant. Returns the updated store and the ordered trace of steps; `fuel`
bounds the recursion depth (the C++ recursion is bounded only by tree depth). -/
def layoutOutOfFlowDescendants (g : Geometry) (ext : Nat → Store → Store) (tree : Tree) :
    Nat → Store → Nat → Store × List Event
  | 0, store, _ => (store, [])
  | fuel + 1, store, b =>
    let box := tree b
    if !box.isPositioned && !box.isInitialContainingBlock then (store, [])
    else if !box.isContainer then (store, [])
    else if !box.hasChild then (store, [])
    else
      box.outOfFlowDescendants.foldl
        (fun acc d =>
          ((layoutOutOfFlowDescendants g ext tree fuel
              (layoutOneDescendant g ext tree acc.1 d) d).1,
            acc.2 ++ stepEvents d
              ++ (layoutOutOfFlowDescendants g ext tree fuel
                  (layoutOneDescendant g ext tree acc.1 d) d).2))
        (store, [])

/-- Modelled from the spec's wording of the ordering guarantee (§4.4, §8): a
processed container's out-of-flow descendants appear in the descendant set's
insertion order, each contributing its four steps in order followed by its own
subtree's trace before the next sibling (depth-first). Defined purely on the
tree, independent of any store or Geometry. -/
def specDepthFirstTrace (tree : Tree) : Nat → Nat → List Event
  | 0, _ => []
  | fuel + 1, b =>
    let box := tree b
    if !box.isPositioned && !box.isInitialContainingBlock then []
    else if !box.isContainer then []
    else if !box.hasChild then []
    else
      box.outOfFlowDescendants.foldr
        (fun d rest => stepEvents d ++ (specDepthFirstTrace tree fuel d ++ rest))
        []

theorem foldl_step_trace
    (S : Store → Nat → Store)
    (R : Store → Nat → Store × List Event)
    (T : Nat → List Event)
    (hR : ∀ s d, (R s d).2 = T d) :
    ∀ (l : List Nat) (store : Store) (acc : List Event),
      (l.foldl (fun a d => ((R (S a.1 d) d).1, a.2 ++ stepEvents d ++ (R (S a.1 d) d).2))
          (store, acc)).2
        = acc ++ l.foldr (fun d rest => stepEvents d ++ (T d ++ rest)) [] := by
  intro l
  induction l with
  | nil =>
    intro store acc
    simp
  | cons d ds ih =>
    intro store acc
    rw [List.foldl_cons, ih, hR]
    simp [List.append_assoc]

/-- C6: the trace of `layoutOutOfFlowDescendants` equals the depth-first trace
the spec describes, for every Geometry, every nested-layout behaviour and
every starting store: descendants are visited in the set's insertion order,
each descendant's four steps occur in order (border/padding, horizontal
geometry, nested layout, vertical geometry), and a descendant's entire
out-of-flow subtree is traversed before the next sibling is started. -/
theorem layoutOutOfFlowDescendants_depth_first
    (g : Geometry) (ext : Nat → Store → Store) (tree : Tree) :
    ∀ (fuel : Nat) (store : Store) (b : Nat),
      (layoutOutOfFlowDescendants g ext tree fuel store b).2 = specDepthFirstTrace tree fuel b := by
  intro fuel
  induction fuel with
  | zero =>
    intro store b
    rfl
  | succ fuel ih =>
    intro store b
    simp only [layoutOutOfFlowDescendants, specDepthFirstTrace]
    split_ifs
    · rfl
    · rfl
    · rfl
    · simpa using foldl_step_trace
        (fun s d => layoutOneDescendant g ext tree s d)
        (fun s d => layoutOutOfFlowDescendants g ext tree fuel s d)
        (fun d => specDepthFirstTrace tree fuel d)
        (fun s d => ih s d)
        (tree b).outOfFlowDescendants store []

/-- C7: `layoutOutOfFlowDescendants` is a no-op — it returns the store
unchanged and performs no per-descendant step — whenever the box is neither
positioned nor the initial containing block, or is not a container, or has an
empty out-of-flow descendant set. -/
theorem layoutOutOfFlowDescendants_noop
    (g : Geometry) (ext : Nat → Store → Store) (tree : Tree) (fuel : Nat) (store : Store)
    (b : Nat)
    (h : ((tree b).isPositioned = false ∧ (tree b).isInitialContainingBlock = false)
      ∨ (tree b).isContainer = false
      ∨ (tree b).outOfFlowDescendants = []) :
    layoutOutOfFlowDescendants g ext tree fuel store b = (store, []) := by
  match fuel with
  | 0 => rfl
  | fuel + 1 =>
    simp only [layoutOutOfFlowDescendants]
    split_ifs with h1 h2 h3
    · rfl
    · rfl
    · rfl
    · rcases h with ⟨hp, hi⟩ | hc | he
      · simp [hp, hi] at h1
      · simp [hc] at h2
      · rw [he]
        rfl

/-- The identity nested-layout behaviour (a formatting context whose layout
leaves the store unchanged). -/
def extId : Nat → Store → Store := fun _ s => s

/-- A tree with no positioned box and no initial containing block anywhere. -/
def treeTrivial : Tree := fun _ => boxDefault

/-- C7 witness: on a box that is neither positioned nor the initial containing
block, the traversal returns the store unchanged with an empty trace. -/
theorem layoutOutOfFlowDescendants_noop_witness :
    (((treeTrivial 0).isPositioned = false ∧ (treeTrivial 0).isInitialContainingBlock = false)
      ∨ (treeTrivial 0).isContainer = false
      ∨ (treeTrivial 0).outOfFlowDescendants = [])
    ∧ layoutOutOfFlowDescendants gStretch extId treeTrivial 3 storeZero 0 = (storeZero, []) :=
  ⟨Or.inl ⟨rfl, rfl⟩,
    layoutOutOfFlowDescendants_noop gStretch extId treeTrivial 3 storeZero 0 (Or.inl ⟨rfl, rfl⟩)⟩

/-- A two-level out-of-flow tree: the initial containing block 0 owns
out-of-flow boxes 1 and 2 (in that insertion order); box 1 in turn owns
out-of-flow box 3. -/
def treeNested : Tree := fun b =>
  if b = 0 then
    { boxDefault with
      isInitialContainingBlock := true,
      isContainer := true,
      hasChild := true,
      outOfFlowDescendants := [1, 2] }
  else if b = 1 then
    { boxDefault with
      containingBlock := some 0,
      isPositioned := true,
      isContainer := true,
      hasChild := true,
      outOfFlowDescendants := [3] }
  else
    { boxDefault with
      containingBlock := some (if b = 3 then 1 else 0),
      isPositioned := true }

example :
    (layoutOutOfFlowDescendants gStretch extId treeNested 5 storeZero 0).2
      = stepEvents 1 ++ stepEvents 3 ++ stepEvents 2 := by
  decide

example :
    ((layoutOutOfFlowDescendants gStretch extId treeNested 5 storeZero 0).1 1).contentBoxWidth
      = 800 := by
  decide

example :
    mapCoordinateToAncestor treeChain storeSteps 5 { x := 0, y := 0 } 2 0
      = some { x := 30, y := 3 } := by
  decide

end WebCoreLayout
